import Mathlib

/-
Verification of the fastapi-example blog backend (src/__main__.py).

The program is a CRUD HTTP service over two SQLite tables, posts and
comments, with one handler per route.  We embed the persistent state as a
pair of row lists, each handler as a pure function from the request data
and the state to a response paired with the successor state, and the
NotFound error path (HTTPException 404) as an Except error.  JSON values
that can appear in request bodies or stored columns are modelled by the
Value type.  SQLite assigns a fresh integer primary key to inserted rows:
one more than the largest rowid in use, 1 for an empty table; nextPostId
and nextCommentId reproduce that rule.
-/

namespace FastapiExample

/-- A JSON-ish scalar value, as it can occur in a request body or a stored
column.  Strings, integers, booleans and null cover every value the
modelled routes can observe. -/
inductive Value where
  | str : String → Value
  | int : Int → Value
  | bool : Bool → Value
  | null : Value
deriving DecidableEq, Repr

/-- Row of the posts table (class Post, src/__main__.py lines 11-14): an
integer primary key and two text columns.  The title and content columns
are modelled as Value because the PATCH handler assigns request-supplied
values to them with no type validation. -/
structure Post where
  id : Int
  title : Value
  content : Value
deriving DecidableEq, Repr

/-- Row of the comments table (class Comment, src/__main__.py lines
16-19): an integer primary key, an integer post_id column (not a real
foreign key: no constraint is declared) and a text content column. -/
structure Comment where
  id : Int
  post_id : Int
  content : Value
deriving DecidableEq, Repr

/-- The persistent state: the rows of the two tables, in insertion
order (the storage-engine default order used by the list routes). -/
structure DB where
  posts : List Post
  comments : List Comment
deriving DecidableEq, Repr

/-- The empty database, as created at first process start. -/
def DB.empty : DB := { posts := [], comments := [] }

/-- The one application-level error: HTTPException 404 with a detail
message (spec section 7: the only custom error kind is NotFound). -/
inductive Err where
  | notFound : String → Err
deriving DecidableEq, Repr

/-- Request body of POST/PUT /posts (class CreatePostModel, lines 34-36).
Pydantic validates both fields as strings, so they are String here. -/
structure CreatePostModel where
  title : String
  content : String
deriving DecidableEq, Repr

/-- Request body of POST/PUT /comments (class CreateCommentModel, lines
98-100).  Pydantic validates post_id as an integer and content as a
string. -/
structure CreateCommentModel where
  post_id : Int
  content : String
deriving DecidableEq, Repr

/-- session.get(Post, pid): primary-key lookup in the posts table. -/
def getPost (db : DB) (pid : Int) : Option Post :=
  db.posts.find? (fun p => p.id == pid)

/-- session.get(Comment, cid): primary-key lookup in the comments
table. -/
def getComment (db : DB) (cid : Int) : Option Comment :=
  db.comments.find? (fun c => c.id == cid)

/-- The rowid SQLite assigns to a row inserted into posts: one more than
the largest id in use, 1 when the table is empty (the fold starts at 0). -/
def nextPostId (db : DB) : Int :=
  db.posts.foldl (fun m p => max m p.id) 0 + 1

/-- The rowid SQLite assigns to a row inserted into comments. -/
def nextCommentId (db : DB) : Int :=
  db.comments.foldl (fun m c => max m c.id) 0 + 1

/-- Handler create_post (lines 38-45): builds a Post from the validated
body, inserts it, and returns the refreshed row (which now carries the
assigned id).  Insertion never fails, so no error case exists. -/
def create_post (inp : CreatePostModel) (db : DB) : Post × DB :=
  let p : Post :=
    { id := nextPostId db, title := Value.str inp.title, content := Value.str inp.content }
  (p, { db with posts := db.posts ++ [p] })

/-- The JSON body the create_post route serializes, as a key-value list.
The route declares response_model=CreatePostModel (lines 38-39), so
FastAPI filters the returned Post down to the title and content fields:
the assigned id is NOT part of the response body. -/
def createPostResponseBody (p : Post) : List (String × Value) :=
  [("title", p.title), ("content", p.content)]

/-- Handler read_posts (lines 47-50): all rows of the posts table. -/
def read_posts (db : DB) : List Post × DB :=
  (db.posts, db)

/-- Handler read_post (lines 52-57): primary-key lookup, 404 when the id
is absent.  The state component records that the handler leaves the
database untouched on every path. -/
def read_post (pid : Int) (db : DB) : Except Err Post × DB :=
  match getPost db pid with
  | none => (Except.error (Err.notFound "Post not found"), db)
  | some p => (Except.ok p, db)

/-- Handler replace_post (lines 59-70): 404 when the id is absent;
otherwise both text columns are overwritten from the validated body, the
row is committed and the refreshed row returned.  The raise happens
before any mutation, so the error path returns the state unchanged. -/
def replace_post (pid : Int) (inp : CreatePostModel) (db : DB) : Except Err Post × DB :=
  match getPost db pid with
  | none => (Except.error (Err.notFound "Post not found"), db)
  | some p =>
    let p2 : Post :=
      { p with title := Value.str inp.title, content := Value.str inp.content }
    (Except.ok p2,
      { db with posts := db.posts.map (fun q => if q.id == pid then p2 else q) })

/-- One iteration of the PATCH loop, setattr(db_post, key, value) (line
78), on a Post.  Assigning to the mapped text columns stores the supplied
value with no type validation.  Assigning to the integer primary key is
modelled for integer values (SQLite rejects a non-integer rowid at the
storage level, a framework 500 outside the NotFound taxonomy, so that
corner is left as the identity).  An attribute that names no mapped
column is not a part of the row: it is never persisted and never appears
in a response, so it leaves the row unchanged. -/
def setattrPost (p : Post) (kv : String × Value) : Post :=
  match kv with
  | ("title", v) => { p with title := v }
  | ("content", v) => { p with content := v }
  | ("id", Value.int n) => { p with id := n }
  | _ => p

/-- One iteration of the PATCH loop on a Comment (line 142). -/
def setattrComment (c : Comment) (kv : String × Value) : Comment :=
  match kv with
  | ("content", v) => { c with content := v }
  | ("post_id", Value.int n) => { c with post_id := n }
  | ("id", Value.int n) => { c with id := n }
  | _ => c

/-- Handler update_post (lines 72-82): 404 when the id is absent;
otherwise every key of the raw request mapping is applied as a field
assignment, in order, with no check that the key names a column, and the
row is committed.  patch_data is a Python dict, iterated in insertion
order, hence a key-value list here. -/
def update_post (pid : Int) (patch_data : List (String × Value)) (db : DB) :
    Except Err Post × DB :=
  match getPost db pid with
  | none => (Except.error (Err.notFound "Post not found"), db)
  | some p =>
    let p2 := patch_data.foldl setattrPost p
    (Except.ok p2,
      { db with posts := db.posts.map (fun q => if q.id == pid then p2 else q) })

/-- Handler delete_post (lines 84-91): 404 when the id is absent;
otherwise the row is removed and a confirmation message object returned.
Only the posts table is touched: no statement mentions comments. -/
def delete_post (pid : Int) (db : DB) : Except Err (List (String × Value)) × DB :=
  match getPost db pid with
  | none => (Except.error (Err.notFound "Post not found"), db)
  | some _ =>
    (Except.ok [("message", Value.str "Post deleted successfully")],
      { db with posts := db.posts.filter (fun q => q.id != pid) })

/-- Handler read_post_comments (lines 93-96): select every comment whose
post_id column equals the path parameter.  No lookup of the post itself
is performed, and no error path exists. -/
def read_post_comments (pid : Int) (db : DB) : List Comment × DB :=
  (db.comments.filter (fun c => c.post_id == pid), db)

/-- Handler create_comment (lines 102-109): builds a Comment from the
validated body and inserts it.  The post_id is taken as supplied: no
check that a post with that id exists. -/
def create_comment (inp : CreateCommentModel) (db : DB) : Comment × DB :=
  let c : Comment :=
    { id := nextCommentId db, post_id := inp.post_id, content := Value.str inp.content }
  (c, { db with comments := db.comments ++ [c] })

/-- Handler read_comments (lines 111-114): all rows of the comments
table. -/
def read_comments (db : DB) : List Comment × DB :=
  (db.comments, db)

/-- Handler read_comment (lines 116-121): primary-key lookup, 404 when
absent. -/
def read_comment (cid : Int) (db : DB) : Except Err Comment × DB :=
  match getComment db cid with
  | none => (Except.error (Err.notFound "Comment not found"), db)
  | some c => (Except.ok c, db)

/-- Handler replace_comment (lines 123-134): 404 when absent; otherwise
post_id and content are overwritten from the validated body. -/
def replace_comment (cid : Int) (inp : CreateCommentModel) (db : DB) :
    Except Err Comment × DB :=
  match getComment db cid with
  | none => (Except.error (Err.notFound "Comment not found"), db)
  | some c =>
    let c2 : Comment :=
      { c with post_id := inp.post_id, content := Value.str inp.content }
    (Except.ok c2,
      { db with comments := db.comments.map (fun d => if d.id == cid then c2 else d) })

/-- Handler update_comment (lines 136-146): the PATCH loop on a
comment. -/
def update_comment (cid : Int) (patch_data : List (String × Value)) (db : DB) :
    Except Err Comment × DB :=
  match getComment db cid with
  | none => (Except.error (Err.notFound "Comment not found"), db)
  | some c =>
    let c2 := patch_data.foldl setattrComment c
    (Except.ok c2,
      { db with comments := db.comments.map (fun d => if d.id == cid then c2 else d) })

/-- Handler delete_comment (lines 148-155): 404 when absent; otherwise
the row is removed. -/
def delete_comment (cid : Int) (db : DB) : Except Err (List (String × Value)) × DB :=
  match getComment db cid with
  | none => (Except.error (Err.notFound "Comment not found"), db)
  | some _ =>
    (Except.ok [("message", Value.str "Comment deleted successfully")],
      { db with comments := db.comments.filter (fun d => d.id != cid) })

/-- Handler read_comment_post (lines 157-165): look the comment up (404
when absent), then look its owning post up by the stored post_id (404
when absent, possible because deletes do not cascade). -/
def read_comment_post (cid : Int) (db : DB) : Except Err Post × DB :=
  match getComment db cid with
  | none => (Except.error (Err.notFound "Comment not found"), db)
  | some c =>
    match getPost db c.post_id with
    | none => (Except.error (Err.notFound "Post not found"), db)
    | some p => (Except.ok p, db)

/-- Result of running the process entry point (lines 167-178) under a
given environment: the host and port computed from the environment, and
the host and port literally passed to uvicorn.run. -/
structure EntryTrace where
  envHost : String
  envPort : Int
  listenHost : String
  listenPort : Int
deriving DecidableEq, Repr

/-- Decimal digit value of a character, none when it is not a digit. -/
def pyDigit? (c : Char) : Option Nat :=
  if c.isDigit then some (c.toNat - 48) else none

/-- Accumulate a decimal number over a character list; none as the
accumulator means no digit has been consumed yet, so an empty digit
string fails. -/
def parseDigits : List Char → Option Nat → Option Nat
  | [], acc => acc
  | c :: cs, acc =>
    match pyDigit? c, acc with
    | some d, some a => parseDigits cs (some (a * 10 + d))
    | some d, none => parseDigits cs (some d)
    | none, _ => none

/-- Optionally signed decimal integer over a character list. -/
def pyIntCore : List Char → Option Int
  | '-' :: rest => (parseDigits rest none).map (fun n => -(n : Int))
  | '+' :: rest => (parseDigits rest none).map (fun n => (n : Int))
  | cs => (parseDigits cs none).map (fun n => (n : Int))

/-- Drop leading and trailing whitespace from a character list. -/
def stripWs (cs : List Char) : List Char :=
  ((cs.dropWhile Char.isWhitespace).reverse.dropWhile Char.isWhitespace).reverse

/-- Python int(s) on the PORT string: parse an optionally signed decimal
integer, ignoring surrounding whitespace; none models the ValueError
branch.  (Digit-group underscores accepted by Python are not modelled;
no claim exercises them.) -/
def pyInt (s : String) : Option Int :=
  pyIntCore (stripWs s.data)

/-- The entry point (lines 167-178): host = getenv HOST with default
127.0.0.1; port = getenv PORT with default 8000, run through int() with
ValueError falling back to 8000; then uvicorn.run is called with the
literals host="127.0.0.1", port=8000, ignoring both computed values. -/
def mainEntry (env : String → Option String) : EntryTrace :=
  let host := (env "HOST").getD "127.0.0.1"
  let port : Int :=
    match env "PORT" with
    | none => 8000
    | some s => (pyInt s).getD 8000
  { envHost := host, envPort := port, listenHost := "127.0.0.1", listenPort := 8000 }

/-! Helper lemmas about lookups, fresh ids, row replacement and row
removal, shared by the claim theorems below. -/

/-- The accumulator of the running-maximum fold over post ids is a lower
bound of the result. -/
theorem post_foldl_max_le (l : List Post) (a : Int) :
    a ≤ l.foldl (fun m p => max m p.id) a := by
  induction l generalizing a with
  | nil => simp
  | cons x t ih =>
    rw [List.foldl_cons]
    exact le_trans (le_max_left a x.id) (ih (max a x.id))

/-- Every post id in the list is bounded by the running-maximum fold. -/
theorem post_mem_le_foldl (l : List Post) (a : Int) (q : Post) (hq : q ∈ l) :
    q.id ≤ l.foldl (fun m p => max m p.id) a := by
  induction hq generalizing a with
  | head t =>
    rw [List.foldl_cons]
    exact le_trans (le_max_right a q.id) (post_foldl_max_le t _)
  | tail x hmem ih =>
    rw [List.foldl_cons]
    exact ih (max a x.id)

/-- The accumulator of the running-maximum fold over comment ids is a
lower bound of the result. -/
theorem comment_foldl_max_le (l : List Comment) (a : Int) :
    a ≤ l.foldl (fun m c => max m c.id) a := by
  induction l generalizing a with
  | nil => simp
  | cons x t ih =>
    rw [List.foldl_cons]
    exact le_trans (le_max_left a x.id) (ih (max a x.id))

/-- Every comment id in the list is bounded by the running-maximum
fold. -/
theorem comment_mem_le_foldl (l : List Comment) (a : Int) (q : Comment) (hq : q ∈ l) :
    q.id ≤ l.foldl (fun m c => max m c.id) a := by
  induction hq generalizing a with
  | head t =>
    rw [List.foldl_cons]
    exact le_trans (le_max_right a q.id) (comment_foldl_max_le t _)
  | tail x hmem ih =>
    rw [List.foldl_cons]
    exact ih (max a x.id)

/-- The id SQLite assigns to an inserted post is strictly larger than
every id already in the table, hence fresh. -/
theorem fresh_post_id (db : DB) (q : Post) (hq : q ∈ db.posts) : q.id < nextPostId db := by
  have h := post_mem_le_foldl db.posts 0 q hq
  unfold nextPostId
  omega

/-- The id SQLite assigns to an inserted comment is strictly larger than
every id already in the table, hence fresh. -/
theorem fresh_comment_id (db : DB) (q : Comment) (hq : q ∈ db.comments) :
    q.id < nextCommentId db := by
  have h := comment_mem_le_foldl db.comments 0 q hq
  unfold nextCommentId
  omega

/-- find? over a list extended with one element: when the predicate
fails on every old element and holds on the new one, the new element is
found. -/
theorem find?_append_singleton {α : Type} (pred : α → Bool) (l : List α) (c : α)
    (h : ∀ x ∈ l, pred x = false) (hc : pred c = true) :
    (l ++ [c]).find? pred = some c := by
  induction l with
  | nil =>
    rw [List.nil_append]
    exact List.find?_cons_of_pos _ hc
  | cons x t ih =>
    have hx : pred x = false := h x (List.mem_cons_self x t)
    rw [List.cons_append, List.find?_cons_of_neg]
    · exact ih (fun y hy => h y (List.mem_cons_of_mem x hy))
    · simp [hx]

/-- find? after replacing the matching rows: when some row matches the
predicate and the replacement also matches, the replacement is found. -/
theorem find?_map_replace {α : Type} (pred : α → Bool) (l : List α) (b : α)
    (hb : pred b = true) (hs : (l.find? pred).isSome) :
    (l.map (fun x => if pred x then b else x)).find? pred = some b := by
  induction l with
  | nil => simp [List.find?] at hs
  | cons x t ih =>
    by_cases hx : pred x = true
    · rw [List.map_cons, if_pos hx, List.find?_cons_of_pos _ hb]
    · rw [List.map_cons, if_neg hx, List.find?_cons_of_neg _ hx]
      rw [List.find?_cons_of_neg _ hx] at hs
      exact ih hs

/-- No post survives the delete filter with the deleted id, so the
subsequent primary-key lookup fails. -/
theorem find?_filter_ne_post (l : List Post) (pid : Int) :
    (l.filter (fun q => q.id != pid)).find? (fun q => q.id == pid) = none := by
  rw [List.find?_eq_none]
  intro x hx
  have h2 := (List.mem_filter.mp hx).2
  simp only [bne_iff_ne, ne_eq] at h2
  simp [h2]

/-- A successful primary-key lookup returns a row whose id is the key. -/
theorem getPost_id_eq (db : DB) (pid : Int) (p : Post) (h : getPost db pid = some p) :
    p.id = pid := by
  unfold getPost at h
  have := List.find?_some h
  simpa using this

/-- A successful comment lookup returns a row whose id is the key. -/
theorem getComment_id_eq (db : DB) (cid : Int) (c : Comment)
    (h : getComment db cid = some c) : c.id = cid := by
  unfold getComment at h
  have := List.find?_some h
  simpa using this

/-- Concrete one-post, one-comment database used by the witnesses. -/
def samplePost : Post := { id := 1, title := Value.str "T0", content := Value.str "C0" }

/-- Concrete comment attached to samplePost. -/
def sampleComment : Comment := { id := 1, post_id := 1, content := Value.str "hello" }

/-- Concrete database holding samplePost and sampleComment. -/
def sampleDB : DB := { posts := [samplePost], comments := [sampleComment] }

/-- The freshly created post is found again when the extended table is
searched for the id assigned at creation. -/
theorem getPost_after_create (db : DB) (inp : CreatePostModel) :
    getPost (create_post inp db).2 (create_post inp db).1.id =
      some (create_post inp db).1 := by
  simp only [create_post, getPost]
  apply find?_append_singleton
  · intro x hx
    have hlt := fresh_post_id db x hx
    exact beq_eq_false_iff_ne.mpr (by omega)
  · simp

/-- The freshly created comment is found again when the extended table
is searched for the id assigned at creation. -/
theorem getComment_after_create (db : DB) (inp : CreateCommentModel) :
    getComment (create_comment inp db).2 (create_comment inp db).1.id =
      some (create_comment inp db).1 := by
  simp only [create_comment, getComment]
  apply find?_append_singleton
  · intro x hx
    have hlt := fresh_comment_id db x hx
    exact beq_eq_false_iff_ne.mpr (by omega)
  · simp

/-- Claim C1 (amended): for every create request, create_post persists a
new Post carrying a freshly assigned id (distinct from every id already
in the table) with exactly the supplied title and content, but the
response body, filtered through response_model=CreatePostModel, carries
only title and content: it does NOT contain the assigned id. -/
theorem C1_create_persists_fresh_id_but_response_omits_id
    (inp : CreatePostModel) (db : DB) :
    (create_post inp db).1.title = Value.str inp.title
    ∧ (create_post inp db).1.content = Value.str inp.content
    ∧ (∀ q ∈ db.posts, q.id ≠ (create_post inp db).1.id)
    ∧ (create_post inp db).2.posts = db.posts ++ [(create_post inp db).1]
    ∧ List.lookup "title" (createPostResponseBody (create_post inp db).1) =
        some (Value.str inp.title)
    ∧ List.lookup "content" (createPostResponseBody (create_post inp db).1) =
        some (Value.str inp.content)
    ∧ List.lookup "id" (createPostResponseBody (create_post inp db).1) = none := by
  refine ⟨?_, ?_, ?_, ?_, ?_, ?_, ?_⟩
  · rfl
  · rfl
  · intro q hq
    have hlt := fresh_post_id db q hq
    show q.id ≠ nextPostId db
    omega
  · rfl
  · rfl
  · rfl
  · rfl

/-- Claim C1 witness: instantiation of the amended theorem on the sample
database. -/
theorem C1_amended_witness :
    samplePost.id ≠ (create_post ⟨"A", "B"⟩ sampleDB).1.id
    ∧ List.lookup "id"
        (createPostResponseBody (create_post ⟨"A", "B"⟩ sampleDB).1) = none :=
  ⟨(C1_create_persists_fresh_id_but_response_omits_id ⟨"A", "B"⟩ sampleDB).2.2.1
      samplePost (by simp [sampleDB]),
    (C1_create_persists_fresh_id_but_response_omits_id ⟨"A", "B"⟩ sampleDB).2.2.2.2.2.2⟩

/-- Claim C1 counterexample: on the empty database the created post is
assigned id 1 and that id is persisted, yet the serialized response body
has no id entry at all, refuting the claim that the response body
contains the assigned id. -/
theorem C1_counterexample :
    (create_post ⟨"T", "C"⟩ DB.empty).1.id = 1
    ∧ getPost (create_post ⟨"T", "C"⟩ DB.empty).2 1 =
        some (create_post ⟨"T", "C"⟩ DB.empty).1
    ∧ List.lookup "id"
        (createPostResponseBody (create_post ⟨"T", "C"⟩ DB.empty).1) = none := by
  refine ⟨rfl, rfl, rfl⟩

/-- Environment assigning HOST and PORT valid values distinct from the
defaults. -/
def envSample : String → Option String :=
  fun k => if k = "HOST" then some "0.0.0.0" else if k = "PORT" then some "9000" else none

/-- Environment assigning PORT a string int() rejects. -/
def envBadPort : String → Option String :=
  fun k => if k = "PORT" then some "abc" else none

/-- Claim C2: the entry point does read HOST and PORT from the
environment (an unparsable PORT falling back to 8000), but the values
passed to uvicorn.run are the literals 127.0.0.1 and 8000, so the
environment-derived host and port are NOT what reaches the listener. -/
theorem C2_entry_point_ignores_env :
    mainEntry envSample =
      { envHost := "0.0.0.0", envPort := 9000,
        listenHost := "127.0.0.1", listenPort := 8000 }
    ∧ (mainEntry envSample).listenHost ≠ (mainEntry envSample).envHost
    ∧ (mainEntry envSample).listenPort ≠ (mainEntry envSample).envPort
    ∧ (mainEntry envBadPort).envPort = 8000
    ∧ (mainEntry envBadPort).listenPort = 8000 := by
  refine ⟨by rfl, by decide, by decide, by rfl, by rfl⟩

/-- Claim C6: creating a post and immediately fetching it by the id
assigned at creation succeeds and returns a record whose title and
content are exactly the values supplied at creation. -/
theorem C6_create_then_read_roundtrip (db : DB) (t c : String) :
    (read_post (create_post ⟨t, c⟩ db).1.id (create_post ⟨t, c⟩ db).2).1 =
      Except.ok (create_post ⟨t, c⟩ db).1
    ∧ (create_post ⟨t, c⟩ db).1.title = Value.str t
    ∧ (create_post ⟨t, c⟩ db).1.content = Value.str c := by
  refine ⟨?_, rfl, rfl⟩
  unfold read_post
  rw [getPost_after_create db ⟨t, c⟩]

/-- Claim C3: PATCH on an existing post with the single-key mapping
title maps to v succeeds, stores and returns the record with only the
title changed (content and id written back unchanged, the comments table
untouched), and in general PATCH applies each key of the supplied
mapping as a field assignment, in order, with no validation of key names
or value types (the handler loop is a bare setattr). -/
theorem C3_patch_title_frame_and_no_validation (db : DB) (pid : Int) (p : Post)
    (v : Value) (hp : getPost db pid = some p) :
    update_post pid [("title", v)] db =
      (Except.ok { p with title := v },
        { db with posts := db.posts.map (fun q => if q.id == pid then { p with title := v } else q) })
    ∧ getPost (update_post pid [("title", v)] db).2 pid = some { p with title := v }
    ∧ (update_post pid [("title", v)] db).2.comments = db.comments
    ∧ (∀ kvs : List (String × Value),
        (update_post pid kvs db).1 = Except.ok (kvs.foldl setattrPost p)) := by
  have hid : p.id = pid := getPost_id_eq db pid p hp
  have hdb : update_post pid [("title", v)] db =
      (Except.ok { p with title := v },
        { db with posts := db.posts.map (fun q => if q.id == pid then { p with title := v } else q) }) := by
    unfold update_post
    rw [hp]
    rfl
  refine ⟨hdb, ?_, ?_, ?_⟩
  · have hb : (({ p with title := v } : Post).id == pid) = true := beq_iff_eq.mpr hid
    have hs : (db.posts.find? (fun q => q.id == pid)).isSome := by
      unfold getPost at hp
      rw [hp]
      rfl
    have hfind := find?_map_replace (fun q => q.id == pid) db.posts
      ({ p with title := v }) hb hs
    rw [hdb]
    exact hfind
  · rw [hdb]
  · intro kvs
    unfold update_post
    rw [hp]

/-- Claim C3 witness: patching the sample post with a one-key title
mapping rewrites exactly the title. -/
theorem C3_patch_witness :
    (update_post 1 [("title", Value.str "New")] sampleDB).1 =
      Except.ok { id := 1, title := Value.str "New", content := Value.str "C0" }
    ∧ (update_post 1 [("title", Value.str "New")] sampleDB).2.comments =
        sampleDB.comments := by
  have h := C3_patch_title_frame_and_no_validation sampleDB 1 samplePost
    (Value.str "New") rfl
  refine ⟨?_, h.2.2.1⟩
  rw [h.1]
  rfl

/-- Claim C4: a successful delete of a post touches only the posts
table: the comments list afterwards is exactly the comments list before,
so every comment (orphaned or not) is still retrievable by id, and
listing the comments of the deleted post still returns them. -/
theorem C4_delete_post_preserves_comments (db : DB) (pid : Int) (p : Post)
    (hp : getPost db pid = some p) :
    (delete_post pid db).2.comments = db.comments
    ∧ (∀ cid : Int,
        (read_comment cid (delete_post pid db).2).1 = (read_comment cid db).1)
    ∧ (read_post_comments pid (delete_post pid db).2).1 =
        (read_post_comments pid db).1 := by
  have hcm : (delete_post pid db).2.comments = db.comments := by
    unfold delete_post
    rw [hp]
  refine ⟨hcm, ?_, ?_⟩
  · intro cid
    unfold read_comment getComment
    rw [hcm]
    cases db.comments.find? (fun c => c.id == cid) <;> rfl
  · unfold read_post_comments
    rw [hcm]

/-- Claim C4 witness: deleting post 1 of the sample database leaves its
comment, whose post_id references the deleted post, untouched and
retrievable. -/
theorem C4_delete_witness :
    (delete_post 1 sampleDB).2.comments = sampleDB.comments
    ∧ (read_comment 1 (delete_post 1 sampleDB).2).1 = (read_comment 1 sampleDB).1
    ∧ (read_post_comments 1 (delete_post 1 sampleDB).2).1 =
        (read_post_comments 1 sampleDB).1 := by
  have h := C4_delete_post_preserves_comments sampleDB 1 samplePost rfl
  exact ⟨h.1, h.2.1 1, h.2.2⟩

/-- Claim C5: create_comment performs no referential check: it succeeds
and stores the supplied post_id even when no post with that id exists;
fetching the owning post of the new comment then fails with NotFound,
and the owning-post route also fails with NotFound when the comment id
itself is absent. -/
theorem C5_comment_creation_unchecked (db : DB) (inp : CreateCommentModel) (cid : Int)
    (hpost : getPost db inp.post_id = none) (habs : getComment db cid = none) :
    (create_comment inp db).1.post_id = inp.post_id
    ∧ (create_comment inp db).2.comments = db.comments ++ [(create_comment inp db).1]
    ∧ (read_comment_post (create_comment inp db).1.id (create_comment inp db).2).1 =
        Except.error (Err.notFound "Post not found")
    ∧ (read_comment_post cid db).1 = Except.error (Err.notFound "Comment not found") := by
  refine ⟨rfl, rfl, ?_, ?_⟩
  · have hposts : getPost (create_comment inp db).2 (create_comment inp db).1.post_id =
        none := hpost
    simp only [read_comment_post, getComment_after_create db inp, hposts]
  · unfold read_comment_post
    rw [habs]

/-- Claim C5 witness: on the empty database a comment referencing the
absent post 5 is created, and both NotFound paths of the owning-post
route fire as stated. -/
theorem C5_witness :
    (create_comment ⟨5, "hi"⟩ DB.empty).1.post_id = 5
    ∧ (read_comment_post (create_comment ⟨5, "hi"⟩ DB.empty).1.id
        (create_comment ⟨5, "hi"⟩ DB.empty).2).1 =
          Except.error (Err.notFound "Post not found")
    ∧ (read_comment_post 99 DB.empty).1 =
        Except.error (Err.notFound "Comment not found") := by
  have h := C5_comment_creation_unchecked DB.empty ⟨5, "hi"⟩ 99 rfl rfl
  exact ⟨h.1, h.2.2.1, h.2.2.2⟩

/-- Claim C7: delete of a post fails with NotFound when no row has the
id; when the row exists the delete returns the confirmation message and
a subsequent fetch of that id fails with NotFound. -/
theorem C7_delete_post_semantics (db : DB) (pid : Int) :
    (getPost db pid = none →
      delete_post pid db = (Except.error (Err.notFound "Post not found"), db))
    ∧ (∀ p, getPost db pid = some p →
        (delete_post pid db).1 =
          Except.ok [("message", Value.str "Post deleted successfully")]
        ∧ (read_post pid (delete_post pid db).2).1 =
            Except.error (Err.notFound "Post not found")) := by
  constructor
  · intro h
    unfold delete_post
    rw [h]
  · intro p hp
    have hgone : getPost (delete_post pid db).2 pid = none := by
      unfold delete_post
      rw [hp]
      exact find?_filter_ne_post db.posts pid
    constructor
    · unfold delete_post
      rw [hp]
    · unfold read_post
      rw [hgone]

/-- Claim C7 witness: deleting an absent id errors and changes nothing;
deleting the sample post returns the message and the row is gone. -/
theorem C7_delete_witness :
    delete_post 7 DB.empty = (Except.error (Err.notFound "Post not found"), DB.empty)
    ∧ (delete_post 1 sampleDB).1 =
        Except.ok [("message", Value.str "Post deleted successfully")]
    ∧ (read_post 1 (delete_post 1 sampleDB).2).1 =
        Except.error (Err.notFound "Post not found") :=
  ⟨(C7_delete_post_semantics DB.empty 7).1 rfl,
    ((C7_delete_post_semantics sampleDB 1).2 samplePost rfl).1,
    ((C7_delete_post_semantics sampleDB 1).2 samplePost rfl).2⟩

/-- Claim C8: listing the comments of a post id returns exactly the
comments whose post_id column equals that id, in stored order, leaves
the state untouched, and has no error path at all: in particular the
result is the same plain (possibly empty) list when no post with that id
exists. -/
theorem C8_list_comments_exact (pid : Int) (db : DB) :
    (read_post_comments pid db).1 = db.comments.filter (fun c => c.post_id == pid)
    ∧ (∀ c : Comment,
        c ∈ (read_post_comments pid db).1 ↔ c ∈ db.comments ∧ c.post_id = pid)
    ∧ (read_post_comments pid db).2 = db
    ∧ (getPost db pid = none →
        (read_post_comments pid db).1 = db.comments.filter (fun c => c.post_id == pid)) := by
  refine ⟨rfl, ?_, rfl, fun _ => rfl⟩
  intro c
  show c ∈ db.comments.filter (fun c => c.post_id == pid) ↔ _
  rw [List.mem_filter]
  simp

/-- Claim C8 witness: post id 5 exists nowhere in the sample database
and owns no comments, yet the listing returns the empty list with no
error; the one stored comment is listed exactly under its own
post_id. -/
theorem C8_list_witness :
    (read_post_comments 5 sampleDB).1 = []
    ∧ (read_post_comments 5 sampleDB).2 = sampleDB
    ∧ (sampleComment ∈ (read_post_comments 1 sampleDB).1 ↔
        sampleComment ∈ sampleDB.comments ∧ sampleComment.post_id = 1) := by
  refine ⟨?_, (C8_list_comments_exact 5 sampleDB).2.2.1, (C8_list_comments_exact 1 sampleDB).2.1 sampleComment⟩
  rw [(C8_list_comments_exact 5 sampleDB).2.2.2 rfl]
  rfl

/-- Claim C9: replace (PUT) of a post fails with NotFound when the id is
absent, the state unchanged; when the row exists, the stored and
returned record carries exactly the supplied title and content with the
id unchanged, whatever the prior field values were, and the comments
table is untouched. -/
theorem C9_replace_post_semantics (db : DB) (pid : Int) (inp : CreatePostModel) :
    (getPost db pid = none →
      replace_post pid inp db = (Except.error (Err.notFound "Post not found"), db))
    ∧ (∀ p, getPost db pid = some p →
        (replace_post pid inp db).1 =
          Except.ok { id := pid, title := Value.str inp.title, content := Value.str inp.content }
        ∧ getPost (replace_post pid inp db).2 pid =
            some { id := pid, title := Value.str inp.title, content := Value.str inp.content }
        ∧ (replace_post pid inp db).2.comments = db.comments) := by
  constructor
  · intro h
    unfold replace_post
    rw [h]
  · intro p hp
    have hid : p.id = pid := getPost_id_eq db pid p hp
    have hep : ({ p with title := Value.str inp.title, content := Value.str inp.content } : Post) =
        { id := pid, title := Value.str inp.title, content := Value.str inp.content } := by
      show Post.mk p.id (Value.str inp.title) (Value.str inp.content) =
        Post.mk pid (Value.str inp.title) (Value.str inp.content)
      rw [hid]
    have hdb : (replace_post pid inp db).2 =
        { db with posts := db.posts.map (fun q => if q.id == pid then ({ p with title := Value.str inp.title, content := Value.str inp.content } : Post) else q) } := by
      unfold replace_post
      rw [hp]
    refine ⟨?_, ?_, ?_⟩
    · have h1 : (replace_post pid inp db).1 =
          Except.ok ({ p with title := Value.str inp.title, content := Value.str inp.content } : Post) := by
        unfold replace_post
        rw [hp]
      rw [h1, hep]
    · have hb : (({ p with title := Value.str inp.title, content := Value.str inp.content } : Post).id == pid) = true :=
        beq_iff_eq.mpr hid
      have hs : (db.posts.find? (fun q => q.id == pid)).isSome := by
        unfold getPost at hp
        rw [hp]
        rfl
      have hfind := find?_map_replace (fun q => q.id == pid) db.posts
        ({ p with title := Value.str inp.title, content := Value.str inp.content }) hb hs
      rw [hdb, ← hep]
      exact hfind
    · rw [hdb]

/-- Claim C9 witness: replacing the absent id 7 errors with the database
unchanged; replacing the sample post overwrites both fields, keeps id 1,
and the overwritten row is what a fetch then returns. -/
theorem C9_replace_witness :
    replace_post 7 ⟨"X", "Y"⟩ DB.empty =
      (Except.error (Err.notFound "Post not found"), DB.empty)
    ∧ (replace_post 1 ⟨"X", "Y"⟩ sampleDB).1 =
        Except.ok { id := 1, title := Value.str "X", content := Value.str "Y" }
    ∧ getPost (replace_post 1 ⟨"X", "Y"⟩ sampleDB).2 1 =
        some { id := 1, title := Value.str "X", content := Value.str "Y" } :=
  ⟨(C9_replace_post_semantics DB.empty 7 ⟨"X", "Y"⟩).1 rfl,
    ((C9_replace_post_semantics sampleDB 1 ⟨"X", "Y"⟩).2 samplePost rfl).1,
    ((C9_replace_post_semantics sampleDB 1 ⟨"X", "Y"⟩).2 samplePost rfl).2.1⟩

/-- Claim C10: on every id-addressed operation of both collections (get,
replace, patch, delete, and the owning-post route), the NotFound outcome
leaves the stored state exactly as it was: each handler raises before
touching the session, so the successor state equals the prior state
whenever the result is an error. -/
theorem C10_notfound_leaves_state_unchanged (db : DB) (pid cid : Int)
    (pinp : CreatePostModel) (cinp : CreateCommentModel)
    (pkvs ckvs : List (String × Value)) :
    (∀ e, (read_post pid db).1 = Except.error e → (read_post pid db).2 = db)
    ∧ (∀ e, (replace_post pid pinp db).1 = Except.error e → (replace_post pid pinp db).2 = db)
    ∧ (∀ e, (update_post pid pkvs db).1 = Except.error e → (update_post pid pkvs db).2 = db)
    ∧ (∀ e, (delete_post pid db).1 = Except.error e → (delete_post pid db).2 = db)
    ∧ (∀ e, (read_comment cid db).1 = Except.error e → (read_comment cid db).2 = db)
    ∧ (∀ e, (replace_comment cid cinp db).1 = Except.error e → (replace_comment cid cinp db).2 = db)
    ∧ (∀ e, (update_comment cid ckvs db).1 = Except.error e → (update_comment cid ckvs db).2 = db)
    ∧ (∀ e, (delete_comment cid db).1 = Except.error e → (delete_comment cid db).2 = db)
    ∧ (∀ e, (read_comment_post cid db).1 = Except.error e → (read_comment_post cid db).2 = db) := by
  refine ⟨?_, ?_, ?_, ?_, ?_, ?_, ?_, ?_, ?_⟩
  · intro e he
    cases h : getPost db pid with
    | none => simp [read_post, h]
    | some p => simp [read_post, h] at he
  · intro e he
    cases h : getPost db pid with
    | none => simp [replace_post, h]
    | some p => simp [replace_post, h] at he
  · intro e he
    cases h : getPost db pid with
    | none => simp [update_post, h]
    | some p => simp [update_post, h] at he
  · intro e he
    cases h : getPost db pid with
    | none => simp [delete_post, h]
    | some p => simp [delete_post, h] at he
  · intro e he
    cases h : getComment db cid with
    | none => simp [read_comment, h]
    | some c => simp [read_comment, h] at he
  · intro e he
    cases h : getComment db cid with
    | none => simp [replace_comment, h]
    | some c => simp [replace_comment, h] at he
  · intro e he
    cases h : getComment db cid with
    | none => simp [update_comment, h]
    | some c => simp [update_comment, h] at he
  · intro e he
    cases h : getComment db cid with
    | none => simp [delete_comment, h]
    | some c => simp [delete_comment, h] at he
  · intro e he
    cases h : getComment db cid with
    | none => simp [read_comment_post, h]
    | some c =>
      cases h2 : getPost db c.post_id with
      | none => simp [read_comment_post, h, h2]
      | some p => simp [read_comment_post, h, h2] at he

/-- Claim C10 witness: on the empty database every id-addressed
operation takes its NotFound path and returns the empty database
unchanged. -/
theorem C10_notfound_witness :
    (read_post 7 DB.empty).2 = DB.empty
    ∧ (replace_post 7 ⟨"t", "c"⟩ DB.empty).2 = DB.empty
    ∧ (update_post 7 [] DB.empty).2 = DB.empty
    ∧ (delete_post 7 DB.empty).2 = DB.empty
    ∧ (read_comment 7 DB.empty).2 = DB.empty
    ∧ (replace_comment 7 ⟨1, "c"⟩ DB.empty).2 = DB.empty
    ∧ (update_comment 7 [] DB.empty).2 = DB.empty
    ∧ (delete_comment 7 DB.empty).2 = DB.empty
    ∧ (read_comment_post 7 DB.empty).2 = DB.empty := by
  have h := C10_notfound_leaves_state_unchanged DB.empty 7 7 ⟨"t", "c"⟩ ⟨1, "c"⟩ [] []
  exact ⟨h.1 (Err.notFound "Post not found") rfl,
    h.2.1 (Err.notFound "Post not found") rfl,
    h.2.2.1 (Err.notFound "Post not found") rfl,
    h.2.2.2.1 (Err.notFound "Post not found") rfl,
    h.2.2.2.2.1 (Err.notFound "Comment not found") rfl,
    h.2.2.2.2.2.1 (Err.notFound "Comment not found") rfl,
    h.2.2.2.2.2.2.1 (Err.notFound "Comment not found") rfl,
    h.2.2.2.2.2.2.2.1 (Err.notFound "Comment not found") rfl,
    h.2.2.2.2.2.2.2.2 (Err.notFound "Comment not found") rfl⟩

end FastapiExample
